import Mathlib

/-
Verification of the djimera user-registration service.

Shallow embedding of the domain layer in src/domain/user (entities.py,
repository.py, service.py) together with the error taxonomy of
src/domain/exceptions.  Timestamps are integer seconds (the code treats
datetimes as an ordered clock only); the relational store is a record of
lists of rows; the bcrypt hash and check primitives are parameters
(hashpw, checkpw), as the spec treats hashing as a black box; the random
source of the code generator is an explicit natural-number parameter.
Each SQL statement of repository.py is translated row by row, including
the UNIQUE constraint on users.email and the PRIMARY KEY (user_id, code)
on activation_codes declared in postgresql_client.create_tables; a
constraint violation inside a try block is wrapped into DatabaseException
exactly where repository.py does so.
-/

namespace Djimera

/-- Timestamps in integer seconds. -/
abbrev Time := Int

/-- UserStatus enum from entities.py. -/
inductive UserStatus
  | PENDING
  | ACTIVE
  | INACTIVE
  | SUSPENDED
  deriving DecidableEq, Repr

/-- User domain entity (entities.py, dataclass User); activated_at is null
until activation. -/
structure User where
  user_id : String
  email : String
  password_hash : String
  status : UserStatus
  created_at : Time
  updated_at : Time
  activated_at : Option Time
  deriving DecidableEq, Repr

/-- User.is_active from entities.py: status equals ACTIVE. -/
def User.is_active (u : User) : Bool :=
  decide (u.status = UserStatus.ACTIVE)

/-- ActivationCode domain entity (entities.py, dataclass ActivationCode). -/
structure ActivationCode where
  user_id : String
  code : String
  expires_at : Time
  created_at : Time
  used_at : Option Time
  is_used : Bool
  deriving DecidableEq, Repr

/-- Python random.randint(1000, 9999): uniform over the 9000 values from
1000 to 9999, both ends included; the random source r is explicit. -/
def randint_1000_9999 (r : Nat) : Nat :=
  1000 + r % 9000

/-- Decimal digit d rendered as a character, as Python string formatting
renders it. -/
def digitChar (d : Nat) : Char :=
  Char.ofNat (48 + d)

/-- Python format f"{n:04d}" for n below 10000: the four decimal digits of
n, left-padded with zeros.  The generator only ever formats values in
1000..9999, where this is exactly the Python output. -/
def format04d (n : Nat) : String :=
  String.mk [digitChar (n / 1000 % 10), digitChar (n / 100 % 10),
             digitChar (n / 10 % 10), digitChar (n % 10)]

/-- ActivationCode.generate_for_user from entities.py: a random 4-digit
code, expiry one minute (60 seconds) after creation, unused. -/
def ActivationCode.generate_for_user (uid : String) (r : Nat) (now : Time) :
    ActivationCode :=
  { user_id := uid
    code := format04d (randint_1000_9999 r)
    expires_at := now + 60
    created_at := now
    used_at := none
    is_used := false }

/-- ActivationCode.is_valid from entities.py: not used and now before
expires_at. -/
def ActivationCode.is_valid (ac : ActivationCode) (now : Time) : Bool :=
  !ac.is_used && decide (now < ac.expires_at)

/-- ActivationCode.is_expired from entities.py: now at or past
expires_at. -/
def ActivationCode.is_expired (ac : ActivationCode) (now : Time) : Bool :=
  decide (ac.expires_at ≤ now)

/-- Error taxonomy of src/domain/exceptions: one constructor per domain
exception class raised by the service and repositories.  ValidationException
carries the err_code the raise site passes (DM_REG_0001 for email format,
DM_REG_0002 for password format). -/
inductive DmError
  | validation (err_code : String)
  | userNotFound
  | emailAlreadyExists
  | invalidActivationCode
  | activationCodeExpired
  | userAlreadyActivated
  | database
  | emailService
  | authentication
  deriving DecidableEq, Repr

/-- The machine err_code of each exception class (DmErrorCode values wired
into the constructors in src/domain/exceptions). -/
def DmError.err_code : DmError → String
  | .validation c => c
  | .userNotFound => "DM_REG_0004"
  | .emailAlreadyExists => "DM_REG_0003"
  | .invalidActivationCode => "DM_REG_0005"
  | .activationCodeExpired => "DM_REG_0006"
  | .userAlreadyActivated => "DM_REG_0007"
  | .database => "DM_REG_0008"
  | .emailService => "DM_REG_0009"
  | .authentication => "DM_REG_0010"

/-- The HTTP status wired into each exception class. -/
def DmError.err_status_code : DmError → Nat
  | .validation _ => 422
  | .userNotFound => 404
  | .emailAlreadyExists => 409
  | .invalidActivationCode => 400
  | .activationCodeExpired => 400
  | .userAlreadyActivated => 400
  | .database => 500
  | .emailService => 503
  | .authentication => 401

/-- Characters admitted by the local part of the email regex in
User.validate_email. -/
def isLocalChar (c : Char) : Bool :=
  c.isAlpha || c.isDigit || decide (c = '.') || decide (c = '_') ||
  decide (c = '%') || decide (c = '+') || decide (c = '-')

/-- Characters admitted by the domain part of the email regex. -/
def isDomainChar (c : Char) : Bool :=
  c.isAlpha || c.isDigit || decide (c = '.') || decide (c = '-')

/-- Membership in the language of the tail of the regex after the at sign:
one or more domain characters, a literal dot, then two or more letters. -/
def emailTailOk (cs : List Char) : Bool :=
  (List.range cs.length).any fun j =>
    decide (cs.get? j = some '.') && decide (1 ≤ j) &&
    (cs.take j).all isDomainChar &&
    decide (j + 3 ≤ cs.length) &&
    (cs.drop (j + 1)).all Char.isAlpha

/-- User.validate_email from entities.py: membership in the language of
the anchored regex, one or more local characters, an at sign, then the
tail; an empty email is rejected. -/
def validEmail (s : String) : Bool :=
  let cs := s.data
  (List.range cs.length).any fun i =>
    decide (cs.get? i = some '@') && decide (1 ≤ i) &&
    (cs.take i).all isLocalChar && emailTailOk (cs.drop (i + 1))

/-- PasswordValidator.validate from entities.py: a falsy (empty) or
shorter-than-8 password raises, then a password lacking a letter or
lacking a digit raises; both raise sites pass err_code DM_REG_0002. -/
def PasswordValidator.validate (password : String) : Except DmError Unit :=
  if password.length = 0 ∨ password.length < 8 then
    .error (.validation "DM_REG_0002")
  else if !(password.data.any Char.isAlpha && password.data.any Char.isDigit) then
    .error (.validation "DM_REG_0002")
  else
    .ok ()

/-- One message queued by EmailService.send_activation_code. -/
structure EmailMessage where
  recipient : String
  activation_code : String
  user_id : String
  deriving DecidableEq, Repr

/-- The persistent state the domain layer touches: the two tables plus the
outbound notification queue. -/
structure Db where
  users : List User
  codes : List ActivationCode
  outbox : List EmailMessage
  deriving DecidableEq, Repr

/-- SELECT from users WHERE email equals the argument
(UserRepository.get_user_by_email with fetch one). -/
def get_user_by_email (db : Db) (email : String) : Option User :=
  db.users.find? fun u => decide (u.email = email)

/-- SELECT from users WHERE user_id equals the argument
(UserRepository.get_user_by_id). -/
def get_user_by_id (db : Db) (uid : String) : Option User :=
  db.users.find? fun u => decide (u.user_id = uid)

/-- The per-row effect of the UPDATE in UserRepository.update_user_status. -/
def applyStatus (uid : String) (st : UserStatus) (now : Time)
    (activated_at : Option Time) (u : User) : User :=
  if u.user_id = uid then
    { u with status := st, updated_at := now, activated_at := activated_at }
  else u

/-- The state after the UPDATE statement of
UserRepository.update_user_status. -/
def users_after_status (db : Db) (uid : String) (st : UserStatus) (now : Time)
    (activated_at : Option Time) : Db :=
  { db with users := db.users.map (applyStatus uid st now activated_at) }

/-- UserRepository.update_user_status: UPDATE status, updated_at,
activated_at WHERE user_id matches, then re-read the user by id; a failed
re-read inside the try block is wrapped into DatabaseException. -/
def update_user_status (db : Db) (uid : String) (st : UserStatus) (now : Time)
    (activated_at : Option Time) : (Except DmError User) × Db :=
  match get_user_by_id (users_after_status db uid st now activated_at) uid with
  | none => (.error .database, users_after_status db uid st now activated_at)
  | some u => (.ok u, users_after_status db uid st now activated_at)

/-- SELECT from activation_codes WHERE user_id and code match
(ActivationCodeRepository.get_activation_code). -/
def get_activation_code (db : Db) (uid code : String) : Option ActivationCode :=
  db.codes.find? fun c => decide (c.user_id = uid ∧ c.code = code)

/-- The per-row effect of the UPDATE in
ActivationCodeRepository.mark_code_as_used. -/
def applyMarkUsed (uid code : String) (now : Time) (c : ActivationCode) :
    ActivationCode :=
  if c.user_id = uid ∧ c.code = code then
    { c with is_used := true, used_at := some now }
  else c

/-- ActivationCodeRepository.mark_code_as_used: UPDATE is_used, used_at
WHERE user_id and code match. -/
def mark_code_as_used (db : Db) (uid code : String) (now : Time) : Db :=
  { db with codes := db.codes.map (applyMarkUsed uid code now) }

/-- The per-row effect of the UPDATE in
ActivationCodeRepository.invalidate_user_codes. -/
def applyInvalidate (uid : String) (now : Time) (c : ActivationCode) :
    ActivationCode :=
  if c.user_id = uid ∧ c.is_used = false then
    { c with is_used := true, used_at := some now }
  else c

/-- ActivationCodeRepository.invalidate_user_codes: UPDATE is_used, used_at
WHERE user_id matches and is_used is FALSE. -/
def invalidate_user_codes (db : Db) (uid : String) (now : Time) : Db :=
  { db with codes := db.codes.map (applyInvalidate uid now) }

/-- ActivationCodeRepository.create_activation_code: first invalidate all
unused codes of the owner, then INSERT the row.  The INSERT is subject to
the PRIMARY KEY (user_id, code); a violation raised inside the try block
is wrapped into DatabaseException, after the invalidation has already been
applied (the two statements are separate, not one transaction). -/
def create_activation_code (db : Db) (ac : ActivationCode) (now : Time) :
    (Except DmError ActivationCode) × Db :=
  if (invalidate_user_codes db ac.user_id now).codes.any
      (fun c => decide (c.user_id = ac.user_id ∧ c.code = ac.code)) then
    (.error .database, invalidate_user_codes db ac.user_id now)
  else
    (.ok ac, { invalidate_user_codes db ac.user_id now with
               codes := (invalidate_user_codes db ac.user_id now).codes ++ [ac] })

/-- ActivationCodeRepository.cleanup_expired_codes: DELETE the rows WHERE
expires_at is strictly before now OR is_used is TRUE, returning the number
of rows removed. -/
def sweepMatch (now : Time) (c : ActivationCode) : Bool :=
  decide (c.expires_at < now) || c.is_used

/-- The sweep itself: count of removed rows paired with the new state. -/
def cleanup_expired_codes (db : Db) (now : Time) : Nat × Db :=
  let deleted := db.codes.filter (sweepMatch now)
  let kept := db.codes.filter fun c => !sweepMatch now c
  (deleted.length, { db with codes := kept })

/-- UserRepository.create_user with the read state of the existence check
separated from the write state of the INSERT, modelling the window between
the two statements; the sequential call is create_user below.  Order as in
the source: existence check, then password hash and entity construction
(which validates the email format), then INSERT subject to the UNIQUE
email constraint, whose violation inside the try block is wrapped into
DatabaseException. -/
def create_user_racy (hashpw : String → String) (dbCheck dbInsert : Db)
    (email password newId : String) (now : Time) : (Except DmError User) × Db :=
  match get_user_by_email dbCheck email with
  | some _ => (.error .emailAlreadyExists, dbInsert)
  | none =>
    if validEmail email = false then
      (.error (.validation "DM_REG_0001"), dbInsert)
    else
      let user : User :=
        { user_id := newId, email := email, password_hash := hashpw password,
          status := .PENDING, created_at := now, updated_at := now,
          activated_at := none }
      if dbInsert.users.any (fun u => decide (u.email = email)) then
        (.error .database, dbInsert)
      else
        (.ok user, { dbInsert with users := dbInsert.users ++ [user] })

/-- UserRepository.create_user run without interference: check and INSERT
see the same state. -/
def create_user (hashpw : String → String) (db : Db)
    (email password newId : String) (now : Time) : (Except DmError User) × Db :=
  create_user_racy hashpw db db email password newId now

/-- UserService._authenticate_user: lookup by email, a missing user raises
UserNotFoundException which the handler turns into AuthenticationException;
a failing password check raises AuthenticationException directly. -/
def authenticate_user (checkpw : String → String → Bool) (db : Db)
    (email password : String) : Except DmError User :=
  match get_user_by_email db email with
  | none => .error .authentication
  | some user =>
    if checkpw password user.password_hash then .ok user
    else .error .authentication

/-- UserService._verify_activation_code: absent row raises
InvalidActivationCodeException, then a used row raises it too, then an
expired row raises ActivationCodeExpiredException. -/
def verify_activation_code (db : Db) (uid code : String) (now : Time) :
    Except DmError Unit :=
  match get_activation_code db uid code with
  | none => .error .invalidActivationCode
  | some ac =>
    if ac.is_used then .error .invalidActivationCode
    else if ac.is_expired now then .error .activationCodeExpired
    else .ok ()

/-- UserService.activate_user: authenticate, reject an already active
user, verify the code, set the user ACTIVE with activated_at now, then
mark the code used; the activated user returned is the one re-read by
update_user_status. -/
def activate_user (checkpw : String → String → Bool) (db : Db)
    (email password code : String) (now : Time) : (Except DmError User) × Db :=
  match authenticate_user checkpw db email password with
  | .error e => (.error e, db)
  | .ok user =>
    if user.is_active then (.error .userAlreadyActivated, db)
    else
      match verify_activation_code db user.user_id code now with
      | .error e => (.error e, db)
      | .ok _ =>
        match update_user_status db user.user_id .ACTIVE now (some now) with
        | (.error e, db1) => (.error e, db1)
        | (.ok activated, db1) =>
          (.ok activated, mark_code_as_used db1 user.user_id code now)

/-- EmailService.send_activation_code: enqueue one structured message. -/
def send_activation_code (db : Db) (email code uid : String) : Db :=
  { db with outbox := db.outbox ++ [{ recipient := email, activation_code := code,
                                      user_id := uid }] }

/-- UserService._generate_and_send_activation_code: generate, persist via
the code repository, then enqueue the notification. -/
def generate_and_send_activation_code (db : Db) (user : User) (r : Nat)
    (now : Time) : (Except DmError Unit) × Db :=
  let ac := ActivationCode.generate_for_user user.user_id r now
  match create_activation_code db ac now with
  | (.error e, db1) => (.error e, db1)
  | (.ok _, db1) => (.ok (), send_activation_code db1 user.email ac.code user.user_id)

/-- UserService.register_user: password policy first, then user creation,
then code issuance and notification. -/
def register_user (hashpw : String → String) (db : Db)
    (email password newId : String) (r : Nat) (now : Time) :
    (Except DmError User) × Db :=
  match PasswordValidator.validate password with
  | .error e => (.error e, db)
  | .ok _ =>
    match create_user hashpw db email password newId now with
    | (.error e, db1) => (.error e, db1)
    | (.ok user, db1) =>
      match generate_and_send_activation_code db1 user r now with
      | (.error e, db2) => (.error e, db2)
      | (.ok _, db2) => (.ok user, db2)

/-- UserService.resend_activation_code: authenticate, reject an already
active user, then issue a fresh code and enqueue the notification. -/
def resend_activation_code (checkpw : String → String → Bool) (db : Db)
    (email password : String) (r : Nat) (now : Time) :
    (Except DmError Unit) × Db :=
  match authenticate_user checkpw db email password with
  | .error e => (.error e, db)
  | .ok user =>
    if user.is_active then (.error .userAlreadyActivated, db)
    else generate_and_send_activation_code db user r now

/-
Concrete fixtures used to evaluate the definitions on closed inputs: a
demonstration hash function standing in for the black-box bcrypt pair, a
pending user with one live code, and some derived states.
-/

/-- Demonstration stand-in for bcrypt.hashpw. -/
def hashDemo (password : String) : String :=
  "bc" ++ password

/-- Demonstration stand-in for bcrypt.checkpw, consistent with hashDemo. -/
def checkpwDemo (password hash : String) : Bool :=
  decide (hashDemo password = hash)

/-- Empty store. -/
def dbEmpty : Db :=
  { users := [], codes := [], outbox := [] }

/-- A pending user with known credentials. -/
def userDemo : User :=
  { user_id := "u1", email := "a@x.com", password_hash := hashDemo "pass1234",
    status := .PENDING, created_at := 0, updated_at := 0, activated_at := none }

/-- A live (unused, unexpired until time 100) code for userDemo. -/
def codeDemo : ActivationCode :=
  { user_id := "u1", code := "1234", expires_at := 100, created_at := 0,
    used_at := none, is_used := false }

/-- Store holding the pending user and its live code. -/
def dbDemo : Db :=
  { users := [userDemo], codes := [codeDemo], outbox := [] }

/-- Store where the same user is already ACTIVE. -/
def dbActiveDemo : Db :=
  { users := [{ userDemo with status := .ACTIVE, activated_at := some 5 }],
    codes := [codeDemo], outbox := [] }

/-
General lemmas about the list-level store operations.
-/

/-- find? commutes with a map that does not change the tested field. -/
theorem find?_map_pres {α : Type} (f : α → α) (p : α → Bool) (l : List α)
    (hp : ∀ a, p (f a) = p a) :
    (l.map f).find? p = (l.find? p).map f := by
  induction l with
  | nil => rfl
  | cons a t ih =>
    cases h : p a with
    | true =>
      rw [List.map_cons, List.find?_cons_of_pos _ (by rw [hp]; exact h),
        List.find?_cons_of_pos _ h]
      rfl
    | false =>
      rw [List.map_cons, List.find?_cons_of_neg _ (by simp [hp, h]),
        List.find?_cons_of_neg _ (by simp [h]), ih]

/-- find? over an appended list looks left first. -/
theorem find?_append {α : Type} (p : α → Bool) (l₁ l₂ : List α) :
    (l₁ ++ l₂).find? p =
      (match l₁.find? p with
       | some a => some a
       | none => l₂.find? p) := by
  induction l₁ with
  | nil => rfl
  | cons a t ih =>
    cases h : p a with
    | true =>
      rw [List.cons_append, List.find?_cons_of_pos _ h,
        List.find?_cons_of_pos _ h]
    | false =>
      rw [List.cons_append, List.find?_cons_of_neg _ (by simp [h]),
        List.find?_cons_of_neg _ (by simp [h]), ih]

/-- applyStatus never changes user_id. -/
theorem applyStatus_user_id (uid : String) (st : UserStatus) (now : Time)
    (act : Option Time) (u : User) :
    (applyStatus uid st now act u).user_id = u.user_id := by
  unfold applyStatus; split <;> rfl

/-- applyStatus never changes email. -/
theorem applyStatus_email (uid : String) (st : UserStatus) (now : Time)
    (act : Option Time) (u : User) :
    (applyStatus uid st now act u).email = u.email := by
  unfold applyStatus; split <;> rfl

/-- applyStatus never changes password_hash. -/
theorem applyStatus_password_hash (uid : String) (st : UserStatus) (now : Time)
    (act : Option Time) (u : User) :
    (applyStatus uid st now act u).password_hash = u.password_hash := by
  unfold applyStatus; split <;> rfl

/-- applyMarkUsed never changes user_id. -/
theorem applyMarkUsed_user_id (uid code : String) (now : Time)
    (c : ActivationCode) :
    (applyMarkUsed uid code now c).user_id = c.user_id := by
  unfold applyMarkUsed; split <;> rfl

/-- applyMarkUsed never changes the code string. -/
theorem applyMarkUsed_code (uid code : String) (now : Time)
    (c : ActivationCode) :
    (applyMarkUsed uid code now c).code = c.code := by
  unfold applyMarkUsed; split <;> rfl

/-- applyInvalidate never changes user_id. -/
theorem applyInvalidate_user_id (uid : String) (now : Time)
    (c : ActivationCode) :
    (applyInvalidate uid now c).user_id = c.user_id := by
  unfold applyInvalidate; split <;> rfl

/-- applyInvalidate never changes the code string. -/
theorem applyInvalidate_code (uid : String) (now : Time)
    (c : ActivationCode) :
    (applyInvalidate uid now c).code = c.code := by
  unfold applyInvalidate; split <;> rfl

/-- After applyInvalidate, any row owned by the target user is used. -/
theorem applyInvalidate_is_used (uid : String) (now : Time)
    (c : ActivationCode) (h : c.user_id = uid) :
    (applyInvalidate uid now c).is_used = true := by
  unfold applyInvalidate
  split
  · rfl
  · rename_i hnot
    cases hu : c.is_used with
    | false => exact absurd ⟨h, hu⟩ hnot
    | true => rfl

/-- Lookup by id after the status UPDATE: the updated image of the old
lookup. -/
theorem get_user_by_id_map_status (db : Db) (uid : String) (st : UserStatus)
    (now : Time) (act : Option Time) (uid2 : String) :
    get_user_by_id (users_after_status db uid st now act) uid2
      = (get_user_by_id db uid2).map (applyStatus uid st now act) := by
  unfold get_user_by_id users_after_status
  exact find?_map_pres _ _ _ (fun u => by simp [applyStatus_user_id])

/-- Lookup by email after the status UPDATE: the updated image of the old
lookup. -/
theorem get_user_by_email_map_status (db : Db) (uid : String) (st : UserStatus)
    (now : Time) (act : Option Time) (email : String) :
    get_user_by_email (users_after_status db uid st now act) email
      = (get_user_by_email db email).map (applyStatus uid st now act) := by
  unfold get_user_by_email users_after_status
  exact find?_map_pres _ _ _ (fun u => by simp [applyStatus_email])

/-- Code lookup after mark_code_as_used: the updated image of the old
lookup. -/
theorem get_activation_code_mark (db : Db) (uid code : String) (now : Time)
    (uid2 code2 : String) :
    get_activation_code (mark_code_as_used db uid code now) uid2 code2
      = (get_activation_code db uid2 code2).map (applyMarkUsed uid code now) := by
  unfold get_activation_code mark_code_as_used
  exact find?_map_pres _ _ _
    (fun c => by simp [applyMarkUsed_user_id, applyMarkUsed_code])

/-- Code lookup after invalidate_user_codes: the updated image of the old
lookup. -/
theorem get_activation_code_invalidate (db : Db) (uid : String) (now : Time)
    (uid2 code2 : String) :
    get_activation_code (invalidate_user_codes db uid now) uid2 code2
      = (get_activation_code db uid2 code2).map (applyInvalidate uid now) := by
  unfold get_activation_code invalidate_user_codes
  exact find?_map_pres _ _ _
    (fun c => by simp [applyInvalidate_user_id, applyInvalidate_code])

/-- Splitting a list length by a boolean predicate. -/
theorem length_filter_add_length_filter_not {α : Type} (p : α → Bool)
    (l : List α) :
    (l.filter p).length + (l.filter (fun a => !p a)).length = l.length := by
  induction l with
  | nil => rfl
  | cons a t ih =>
    cases h : p a <;> simp [List.filter_cons, h, ← ih] <;> omega

/-- A password failing the policy reported through err_code DM_REG_0002. -/
theorem validate_fails_of_bad (password : String)
    (h : password.length < 8 ∨ password.data.any Char.isAlpha = false ∨
        password.data.any Char.isDigit = false) :
    PasswordValidator.validate password = .error (.validation "DM_REG_0002") := by
  unfold PasswordValidator.validate
  rcases h with h | h | h
  · rw [if_pos (Or.inr h)]
  · by_cases hl : password.length = 0 ∨ password.length < 8
    · rw [if_pos hl]
    · rw [if_neg hl, if_pos (by simp [h])]
  · by_cases hl : password.length = 0 ∨ password.length < 8
    · rw [if_pos hl]
    · rw [if_neg hl, if_pos (by simp [h])]

/-- C9: register on a password that is empty, shorter than 8, lacking a
letter, or lacking a digit fails with the DM_REG_0002 ValidationError and
leaves the store, the code table and the outbox untouched; a password
meeting all three conditions passes the policy check. -/
theorem C9_password_policy (hashpw : String → String) (db : Db)
    (email password newId : String) (r : Nat) (now : Time) :
    ((password = "" ∨ password.length < 8 ∨
        password.data.any Char.isAlpha = false ∨
        password.data.any Char.isDigit = false) →
      (register_user hashpw db email password newId r now).1
          = Except.error (DmError.validation "DM_REG_0002") ∧
      (register_user hashpw db email password newId r now).2 = db) ∧
    (8 ≤ password.length → password.data.any Char.isAlpha = true →
      password.data.any Char.isDigit = true →
      PasswordValidator.validate password = Except.ok ()) := by
  constructor
  · intro h
    have hbad : password.length < 8 ∨ password.data.any Char.isAlpha = false ∨
        password.data.any Char.isDigit = false := by
      rcases h with h | h | h | h
      · left; rw [h]; decide
      · exact Or.inl h
      · exact Or.inr (Or.inl h)
      · exact Or.inr (Or.inr h)
    have hv := validate_fails_of_bad password hbad
    unfold register_user
    rw [hv]
    exact ⟨rfl, rfl⟩
  · intro hlen ha hd
    unfold PasswordValidator.validate
    rw [if_neg (by omega), if_neg (by simp [ha, hd])]

/-- C9 witness: the theorem applied to a short password and to a compliant
one. -/
theorem C9_password_policy_witness :
    (register_user hashDemo dbEmpty "a@x.com" "1234567" "u1" 0 0).1
        = Except.error (DmError.validation "DM_REG_0002") ∧
    PasswordValidator.validate "password123" = Except.ok () := by
  refine ⟨((C9_password_policy hashDemo dbEmpty "a@x.com" "1234567" "u1" 0 0).1
      (by right; left; decide)).1, ?_⟩
  exact (C9_password_policy hashDemo dbEmpty "a@x.com" "password123" "u1" 0 0).2
    (by decide) (by decide) (by decide)

/-- C8: the sweep removes exactly the rows that are past expiry or used,
returns the number removed, touches no other table, and is idempotent at a
fixed clock. -/
theorem C8_sweep_exact_and_idempotent (db : Db) (now : Time) :
    (∀ c, c ∈ (cleanup_expired_codes db now).2.codes ↔
        c ∈ db.codes ∧ ¬(c.expires_at < now ∨ c.is_used = true)) ∧
    (cleanup_expired_codes db now).1
        = (db.codes.filter (sweepMatch now)).length ∧
    (cleanup_expired_codes db now).1 + (cleanup_expired_codes db now).2.codes.length
        = db.codes.length ∧
    (cleanup_expired_codes db now).2.users = db.users ∧
    (cleanup_expired_codes db now).2.outbox = db.outbox ∧
    cleanup_expired_codes (cleanup_expired_codes db now).2 now
        = (0, (cleanup_expired_codes db now).2) := by
  refine ⟨?_, rfl, ?_, rfl, rfl, ?_⟩
  · intro c
    simp [cleanup_expired_codes, List.mem_filter, sweepMatch, not_or]
  · exact length_filter_add_length_filter_not (sweepMatch now) db.codes
  · have h1 : ((db.codes.filter (fun c => !sweepMatch now c)).filter
        (sweepMatch now)) = [] := by
      rw [List.filter_eq_nil_iff]
      intro a ha
      have := (List.mem_filter.mp ha).2
      simp_all
    have h2 : ((db.codes.filter (fun c => !sweepMatch now c)).filter
        (fun c => !sweepMatch now c)) = db.codes.filter (fun c => !sweepMatch now c) := by
      rw [List.filter_eq_self]
      intro a ha
      exact (List.mem_filter.mp ha).2
    simp [cleanup_expired_codes, h1, h2]

/-- C7 counterexample: the generator can never emit the code 0000, because
random.randint(1000, 9999) never returns a value below 1000; the claim
that every value from 0000 through 9999 is a possible output is false. -/
theorem C7_counterexample :
    ¬ ∃ r : Nat, (ActivationCode.generate_for_user "u1" r 0).code = "0000" := by
  rintro ⟨r, h⟩
  simp only [ActivationCode.generate_for_user, randint_1000_9999, format04d] at h
  have hd := congrArg String.data h
  simp only [String.data] at hd
  have h9 : r % 9000 < 9000 := Nat.mod_lt _ (by norm_num)
  have h1 : 1 ≤ (1000 + r % 9000) / 1000 := by omega
  have h2 : (1000 + r % 9000) / 1000 ≤ 9 := by omega
  have hfirst : digitChar ((1000 + r % 9000) / 1000 % 10) = '0' :=
    (List.cons.inj hd).1
  have hmod : (1000 + r % 9000) / 1000 % 10 = (1000 + r % 9000) / 1000 := by omega
  rw [hmod] at hfirst
  set d := (1000 + r % 9000) / 1000 with hdd
  interval_cases d <;> exact absurd hfirst (by decide)

/-- C7 (amended): generate_for_user returns an unused code expiring exactly
60 seconds after creation whose code string is the zero-padded 4-digit
rendering of a number in 1000..9999, and every value in that range (not in
0000..9999) is a possible output. -/
theorem C7_generate_code_range (uid : String) (r : Nat) (now : Time) :
    (ActivationCode.generate_for_user uid r now).is_used = false ∧
    (ActivationCode.generate_for_user uid r now).used_at = none ∧
    (ActivationCode.generate_for_user uid r now).expires_at = now + 60 ∧
    (ActivationCode.generate_for_user uid r now).created_at = now ∧
    (ActivationCode.generate_for_user uid r now).code.length = 4 ∧
    (∃ n, 1000 ≤ n ∧ n ≤ 9999 ∧
      (ActivationCode.generate_for_user uid r now).code = format04d n) ∧
    (∀ n, 1000 ≤ n → n ≤ 9999 →
      ∃ r2, (ActivationCode.generate_for_user uid r2 now).code = format04d n) := by
  refine ⟨rfl, rfl, rfl, rfl, rfl, ⟨1000 + r % 9000, ?_, ?_, rfl⟩, ?_⟩
  · omega
  · have h9 : r % 9000 < 9000 := Nat.mod_lt _ (by norm_num)
    omega
  · intro n h1 h2
    refine ⟨n - 1000, ?_⟩
    simp only [ActivationCode.generate_for_user, randint_1000_9999]
    have hn : 1000 + (n - 1000) % 9000 = n := by
      have hm : (n - 1000) % 9000 = n - 1000 := Nat.mod_eq_of_lt (by omega)
      omega
    rw [hn]

/-- C7 witness: the surjectivity part of the theorem instantiated at the
code value 1234. -/
theorem C7_generate_code_range_witness :
    ∃ r2, (ActivationCode.generate_for_user "u1" r2 0).code = format04d 1234 := by
  obtain ⟨-, -, -, -, -, -, hsurj⟩ := C7_generate_code_range "u1" 0 0
  exact hsurj 1234 (by norm_num) (by norm_num)

/-- Authentication collapses both failure modes into the same error. -/
theorem authenticate_fails (checkpw : String → String → Bool) (db : Db)
    (email password : String)
    (h : get_user_by_email db email = none ∨
        ∃ u, get_user_by_email db email = some u ∧
          checkpw password u.password_hash = false) :
    authenticate_user checkpw db email password = .error .authentication := by
  unfold authenticate_user
  rcases h with h | ⟨u, hu, hc⟩
  · rw [h]
  · rw [hu]
    simp [hc]

/-- C4: whether the email is unknown or the password does not verify, both
activate and resend fail with the one AuthenticationFailed error, whose
err_code DM_REG_0010 and status 401 are fixed, so the two causes are
indistinguishable to the caller. -/
theorem C4_auth_failure_indistinguishable (checkpw : String → String → Bool)
    (db : Db) (email password code : String) (r : Nat) (now : Time)
    (h : get_user_by_email db email = none ∨
        ∃ u, get_user_by_email db email = some u ∧
          checkpw password u.password_hash = false) :
    (activate_user checkpw db email password code now).1
        = Except.error DmError.authentication ∧
    (resend_activation_code checkpw db email password r now).1
        = Except.error DmError.authentication ∧
    DmError.authentication.err_code = "DM_REG_0010" ∧
    DmError.authentication.err_status_code = 401 := by
  have ha := authenticate_fails checkpw db email password h
  refine ⟨?_, ?_, rfl, rfl⟩
  · unfold activate_user
    rw [ha]
  · unfold resend_activation_code
    rw [ha]

/-- C4 witness: the theorem applied to a missing user and to a present user
with a wrong password, yielding the same error value. -/
theorem C4_auth_failure_indistinguishable_witness :
    (activate_user checkpwDemo dbEmpty "a@x.com" "pass1234" "1234" 10).1
        = Except.error DmError.authentication ∧
    (activate_user checkpwDemo dbDemo "a@x.com" "wrongpw" "1234" 10).1
        = Except.error DmError.authentication := by
  constructor
  · exact (C4_auth_failure_indistinguishable checkpwDemo dbEmpty "a@x.com"
      "pass1234" "1234" 0 10 (Or.inl rfl)).1
  · exact (C4_auth_failure_indistinguishable checkpwDemo dbDemo "a@x.com"
      "wrongpw" "1234" 0 10 (Or.inr ⟨userDemo, rfl, by decide⟩)).1

/-- On an authenticated, non-active user, activate reduces to the code
verification followed by the two writes. -/
theorem activate_user_of_auth (checkpw : String → String → Bool) (db : Db)
    (email password code : String) (now : Time) (user : User)
    (hauth : authenticate_user checkpw db email password = .ok user)
    (hact : user.is_active = false) :
    activate_user checkpw db email password code now =
      match verify_activation_code db user.user_id code now with
      | .error e => (.error e, db)
      | .ok _ =>
        match update_user_status db user.user_id .ACTIVE now (some now) with
        | (.error e, db1) => (.error e, db1)
        | (.ok activated, db1) =>
          (.ok activated, mark_code_as_used db1 user.user_id code now) := by
  unfold activate_user
  rw [hauth]
  simp [hact]

/-- C2: for an authenticated activate call on a non-active user, an absent
or used code row reports InvalidActivationCode (used wins even when also
expired), while a present unused row past its expiry reports
ActivationCodeExpired: the used check runs before the expired check. -/
theorem C2_used_before_expired (checkpw : String → String → Bool) (db : Db)
    (email password code : String) (now : Time) (user : User)
    (hauth : authenticate_user checkpw db email password = .ok user)
    (hact : user.is_active = false) :
    (get_activation_code db user.user_id code = none →
      (activate_user checkpw db email password code now).1
          = Except.error DmError.invalidActivationCode) ∧
    (∀ ac, get_activation_code db user.user_id code = some ac →
      ac.is_used = true →
      (activate_user checkpw db email password code now).1
          = Except.error DmError.invalidActivationCode) ∧
    (∀ ac, get_activation_code db user.user_id code = some ac →
      ac.is_used = false → ac.expires_at ≤ now →
      (activate_user checkpw db email password code now).1
          = Except.error DmError.activationCodeExpired) := by
  rw [activate_user_of_auth checkpw db email password code now user hauth hact]
  refine ⟨?_, ?_, ?_⟩
  · intro hnone
    unfold verify_activation_code
    rw [hnone]
  · intro ac hsome hused
    unfold verify_activation_code
    rw [hsome]
    simp [hused]
  · intro ac hsome hunused hexp
    unfold verify_activation_code
    rw [hsome]
    simp [hunused, ActivationCode.is_expired, hexp]

/-- C2 witness: the theorem applied to an absent code row and to a used,
expired row, plus the expired-unused case. -/
theorem C2_used_before_expired_witness :
    (activate_user checkpwDemo dbDemo "a@x.com" "pass1234" "9999" 10).1
        = Except.error DmError.invalidActivationCode ∧
    (activate_user checkpwDemo dbDemo "a@x.com" "pass1234" "1234" 200).1
        = Except.error DmError.activationCodeExpired := by
  have h := C2_used_before_expired checkpwDemo dbDemo "a@x.com" "pass1234"
    "9999" 10 userDemo rfl (by decide)
  have h2 := C2_used_before_expired checkpwDemo dbDemo "a@x.com" "pass1234"
    "1234" 200 userDemo rfl (by decide)
  exact ⟨h.1 rfl, h2.2.2 codeDemo rfl rfl (by decide)⟩

/-- C6 counterexample: an activate call naming the email of an ACTIVE user
but carrying a wrong password fails with AuthenticationFailed, not
UserAlreadyActivated: the claim that such calls always fail
UserAlreadyActivated regardless of credential correctness is false. -/
theorem C6_counterexample :
    (activate_user checkpwDemo dbActiveDemo "a@x.com" "wrongpw" "1234" 10).1
        = Except.error DmError.authentication ∧
    DmError.authentication ≠ DmError.userAlreadyActivated := by
  exact ⟨rfl, by decide⟩

/-- C6 (amended): on an already ACTIVE user, activate and resend with
correct credentials always fail with UserAlreadyActivated whatever code is
supplied, because the already-active check runs right after authentication
and before any code handling; with failing credentials the earlier
authentication check reports AuthenticationFailed instead. -/
theorem C6_already_active_precedence (checkpw : String → String → Bool)
    (db : Db) (email password code : String) (r : Nat) (now : Time)
    (user : User)
    (hauth : authenticate_user checkpw db email password = .ok user)
    (hactive : user.is_active = true) :
    (activate_user checkpw db email password code now).1
        = Except.error DmError.userAlreadyActivated ∧
    (resend_activation_code checkpw db email password r now).1
        = Except.error DmError.userAlreadyActivated := by
  constructor
  · unfold activate_user
    rw [hauth]
    simp [hactive]
  · unfold resend_activation_code
    rw [hauth]
    simp [hactive]

/-- C6 witness: the amended theorem applied to the active user with a code
that does not even exist. -/
theorem C6_already_active_precedence_witness :
    (activate_user checkpwDemo dbActiveDemo "a@x.com" "pass1234" "9999" 10).1
        = Except.error DmError.userAlreadyActivated ∧
    (resend_activation_code checkpwDemo dbActiveDemo "a@x.com" "pass1234" 0 10).1
        = Except.error DmError.userAlreadyActivated :=
  C6_already_active_precedence checkpwDemo dbActiveDemo "a@x.com" "pass1234"
    "9999" 0 10 ({ userDemo with status := .ACTIVE, activated_at := some 5 })
    rfl (by decide)

/-- The only error update_user_status can produce is the wrapped
DatabaseException. -/
theorem update_user_status_error_is_database (db : Db) (uid : String)
    (st : UserStatus) (now : Time) (act : Option Time) (e4 : DmError) (db1 : Db)
    (h : update_user_status db uid st now act = (.error e4, db1)) :
    e4 = DmError.database := by
  unfold update_user_status at h
  cases hg : get_user_by_id (users_after_status db uid st now act) uid with
  | none =>
    rw [hg] at h
    have := congrArg Prod.fst h
    simp at this
    exact this.symm
  | some u2 =>
    rw [hg] at h
    have := congrArg Prod.fst h
    simp at this

/-- C10: whenever activate fails with one of the four domain errors, all of
its checks precede its two writes, so the returned state is exactly the
input state: no user row and no code row changes. -/
theorem C10_activate_error_preserves_state (checkpw : String → String → Bool)
    (db : Db) (email password code : String) (now : Time) (e : DmError)
    (h : (activate_user checkpw db email password code now).1 = .error e)
    (he : e = DmError.authentication ∨ e = DmError.userAlreadyActivated ∨
        e = DmError.invalidActivationCode ∨ e = DmError.activationCodeExpired) :
    (activate_user checkpw db email password code now).2 = db := by
  cases hauth : authenticate_user checkpw db email password with
  | error e2 =>
    have hx : activate_user checkpw db email password code now = (.error e2, db) := by
      unfold activate_user
      rw [hauth]
    rw [hx]
  | ok user =>
    cases hia : user.is_active with
    | true =>
      have hx : activate_user checkpw db email password code now
          = (.error .userAlreadyActivated, db) := by
        unfold activate_user
        rw [hauth]
        simp [hia]
      rw [hx]
    | false =>
      have hsh := activate_user_of_auth checkpw db email password code now user hauth hia
      cases hv : verify_activation_code db user.user_id code now with
      | error e3 =>
        rw [hsh, hv]
      | ok u =>
        cases hupd : update_user_status db user.user_id .ACTIVE now (some now) with
        | mk res db1 =>
          cases res with
          | ok activated =>
            have hx : activate_user checkpw db email password code now
                = (.ok activated, mark_code_as_used db1 user.user_id code now) := by
              rw [hsh, hv, hupd]
            rw [hx] at h
            exact absurd h (by simp)
          | error e4 =>
            have he4 : e4 = DmError.database :=
              update_user_status_error_is_database db user.user_id .ACTIVE now
                (some now) e4 db1 hupd
            have hx : activate_user checkpw db email password code now
                = (.error e4, db1) := by
              rw [hsh, hv, hupd]
            rw [hx] at h
            have hee : e = e4 := (Except.error.inj h).symm
            rw [he4] at hee
            rcases he with he | he | he | he <;> rw [he] at hee <;>
              exact absurd hee (by decide)

/-- C10 witness: a failing activate call (wrong code) leaves the store
exactly as it was. -/
theorem C10_activate_error_preserves_state_witness :
    (activate_user checkpwDemo dbDemo "a@x.com" "pass1234" "9999" 10).1
        = Except.error DmError.invalidActivationCode ∧
    (activate_user checkpwDemo dbDemo "a@x.com" "pass1234" "9999" 10).2
        = dbDemo := by
  refine ⟨rfl, ?_⟩
  exact C10_activate_error_preserves_state checkpwDemo dbDemo "a@x.com"
    "pass1234" "9999" 10 DmError.invalidActivationCode rfl
    (Or.inr (Or.inr (Or.inl rfl)))

/-- C5 counterexample: with no user at check time but a same-email user
present at insert time (the modelled race window), create_user surfaces
the uniqueness violation as the wrapped DatabaseException, not as
EmailAlreadyExists: the claim that the check is atomic with the insert and
that a race yields the same EmailAlreadyExists error is false. -/
theorem C5_counterexample :
    (create_user_racy hashDemo dbEmpty dbDemo "a@x.com" "password123" "u9" 0).1
        = Except.error DmError.database ∧
    DmError.database ≠ DmError.emailAlreadyExists := by
  exact ⟨rfl, by decide⟩

/-- C5 (amended): when the email already exists at check time create fails
with EmailAlreadyExists and writes nothing; the check is not atomic with
the insert, and a same-email row appearing between the check and the
insert surfaces the uniqueness violation as the wrapped DatabaseException
rather than EmailAlreadyExists, though never as an unhandled crash. -/
theorem C5_create_user_uniqueness (hashpw : String → String)
    (db dbCheck dbInsert : Db) (email password newId : String) (now : Time) :
    ((∃ u, get_user_by_email db email = some u) →
      (create_user hashpw db email password newId now).1
          = Except.error DmError.emailAlreadyExists ∧
      (create_user hashpw db email password newId now).2 = db) ∧
    (get_user_by_email dbCheck email = none → validEmail email = true →
      (∃ u ∈ dbInsert.users, u.email = email) →
      (create_user_racy hashpw dbCheck dbInsert email password newId now).1
          = Except.error DmError.database) := by
  constructor
  · rintro ⟨u, hu⟩
    unfold create_user create_user_racy
    rw [hu]
    exact ⟨rfl, rfl⟩
  · rintro hnone hvalid ⟨u, hmem, hemail⟩
    unfold create_user_racy
    rw [hnone, if_neg (by simp [hvalid])]
    rw [if_pos (List.any_eq_true.mpr ⟨u, hmem, by simp [hemail]⟩)]

/-- C5 witness: the amended theorem applied to a store already holding the
email, and to the race window with the empty check state. -/
theorem C5_create_user_uniqueness_witness :
    (create_user hashDemo dbDemo "a@x.com" "password123" "u9" 0).1
        = Except.error DmError.emailAlreadyExists ∧
    (create_user_racy hashDemo dbEmpty dbDemo "a@x.com" "password123" "u9" 1).1
        = Except.error DmError.database := by
  constructor
  · exact ((C5_create_user_uniqueness hashDemo dbDemo dbEmpty dbDemo "a@x.com"
      "password123" "u9" 0).1 ⟨userDemo, rfl⟩).1
  · exact (C5_create_user_uniqueness hashDemo dbDemo dbEmpty dbDemo "a@x.com"
      "password123" "u9" 1).2 rfl (by decide) ⟨userDemo, by decide, rfl⟩

/-- Shape of the state after a successful code creation: every prior row
invalidated for the owner, then the fresh row appended. -/
theorem create_activation_code_ok_codes (db : Db) (ac : ActivationCode)
    (now : Time)
    (h : (create_activation_code db ac now).1 = Except.ok ac) :
    (create_activation_code db ac now).2.codes
      = db.codes.map (applyInvalidate ac.user_id now) ++ [ac] := by
  unfold create_activation_code at h ⊢
  by_cases hdup : (invalidate_user_codes db ac.user_id now).codes.any
      (fun c => decide (c.user_id = ac.user_id ∧ c.code = ac.code)) = true
  · rw [if_pos hdup] at h
    exact absurd h (by simp)
  · rw [if_neg hdup]
    rfl

/-- C3 (as claimed): issuing a fresh code via create_activation_code, when
it completes, leaves every prior unused row of that user flagged used with
used_at stamped, inserts the new row unused, leaves at most one unused row
for the user, and makes any previously issued (different) code fail
verification with InvalidActivationCode at any later clock, never with
ActivationCodeExpired. -/
theorem C3_issue_invalidates_prior (db : Db) (uid : String) (r : Nat)
    (now : Time)
    (h : (create_activation_code db (ActivationCode.generate_for_user uid r now) now).1
        = Except.ok (ActivationCode.generate_for_user uid r now)) :
    (∀ c ∈ db.codes, c.user_id = uid → c.is_used = false →
      ({ c with is_used := true, used_at := some now } : ActivationCode)
        ∈ (create_activation_code db (ActivationCode.generate_for_user uid r now) now).2.codes) ∧
    ActivationCode.generate_for_user uid r now
        ∈ (create_activation_code db (ActivationCode.generate_for_user uid r now) now).2.codes ∧
    (ActivationCode.generate_for_user uid r now).is_used = false ∧
    (create_activation_code db (ActivationCode.generate_for_user uid r now) now).2.codes.countP
        (fun c => decide (c.user_id = uid ∧ c.is_used = false)) ≤ 1 ∧
    (∀ oldCode now2, oldCode ≠ (ActivationCode.generate_for_user uid r now).code →
      (∃ c ∈ db.codes, c.user_id = uid ∧ c.code = oldCode) →
      verify_activation_code
          (create_activation_code db (ActivationCode.generate_for_user uid r now) now).2
          uid oldCode now2
        = Except.error DmError.invalidActivationCode) := by
  have hcodes := create_activation_code_ok_codes db
    (ActivationCode.generate_for_user uid r now) now h
  have hgenuid : (ActivationCode.generate_for_user uid r now).user_id = uid := rfl
  refine ⟨?_, ?_, rfl, ?_, ?_⟩
  · intro c hc hcuid hcun
    rw [hcodes, hgenuid]
    refine List.mem_append_left _ ?_
    have himg : applyInvalidate uid now c
        = { c with is_used := true, used_at := some now } := by
      unfold applyInvalidate
      rw [if_pos ⟨hcuid, hcun⟩]
    exact himg ▸ List.mem_map_of_mem (applyInvalidate uid now) hc
  · rw [hcodes]
    exact List.mem_append_right _ (List.mem_singleton.mpr rfl)
  · rw [hcodes, hgenuid, List.countP_append]
    have hmap : (db.codes.map (applyInvalidate uid now)).countP
        (fun c => decide (c.user_id = uid ∧ c.is_used = false)) = 0 := by
      rw [List.countP_eq_zero]
      intro x hx
      obtain ⟨y, hy, hxy⟩ := List.mem_map.mp hx
      simp only [decide_eq_true_eq, not_and]
      intro hxu
      have hyu : y.user_id = uid := by
        rw [← applyInvalidate_user_id uid now y, hxy]
        exact hxu
      rw [← hxy]
      simp [applyInvalidate_is_used uid now y hyu]
    rw [hmap]
    simp only [List.countP_cons, List.countP_nil, decide_eq_true_eq]
    split <;> omega
  · intro oldCode now2 hne ⟨c0, hc0, hc0uid, hc0code⟩
    have hfind : ∃ x, ((create_activation_code db
        (ActivationCode.generate_for_user uid r now) now).2.codes.find?
          (fun c => decide (c.user_id = uid ∧ c.code = oldCode))) = some x
        ∧ x.is_used = true := by
      rw [hcodes, hgenuid, find?_append]
      have hsome : ((db.codes.map (applyInvalidate uid now)).find?
          (fun c => decide (c.user_id = uid ∧ c.code = oldCode))).isSome := by
        rw [List.find?_isSome]
        refine ⟨applyInvalidate uid now c0, List.mem_map_of_mem _ hc0, ?_⟩
        simp [applyInvalidate_user_id, applyInvalidate_code, hc0uid, hc0code]
      obtain ⟨x, hx⟩ := Option.isSome_iff_exists.mp hsome
      refine ⟨x, by rw [hx], ?_⟩
      have hpx := List.find?_some hx
      simp only [decide_eq_true_eq] at hpx
      obtain ⟨y, hy, hxy⟩ := List.mem_map.mp (List.mem_of_find?_eq_some hx)
      have hyu : y.user_id = uid := by
        rw [← applyInvalidate_user_id uid now y, hxy]
        exact hpx.1
      rw [← hxy]
      exact applyInvalidate_is_used uid now y hyu
    obtain ⟨x, hx, hxu⟩ := hfind
    unfold verify_activation_code get_activation_code
    rw [hx]
    simp [hxu]

/-- C3 witness: issuing a fresh code over the demo store makes the prior
live code 1234 fail verification with InvalidActivationCode. -/
theorem C3_issue_invalidates_prior_witness :
    verify_activation_code
        (create_activation_code dbDemo (ActivationCode.generate_for_user "u1" 0 10) 10).2
        "u1" "1234" 20
      = Except.error DmError.invalidActivationCode ∧
    (ActivationCode.generate_for_user "u1" 0 10).is_used = false := by
  have h := C3_issue_invalidates_prior dbDemo "u1" 0 10 rfl
  exact ⟨h.2.2.2.2 "1234" 20 (by decide) ⟨codeDemo, by decide, rfl, rfl⟩, h.2.2.1⟩

/-- mark_code_as_used leaves the users table untouched. -/
theorem get_user_by_id_mark (db : Db) (uid code : String) (now : Time)
    (uid2 : String) :
    get_user_by_id (mark_code_as_used db uid code now) uid2
      = get_user_by_id db uid2 := rfl

/-- mark_code_as_used leaves email lookups untouched. -/
theorem get_user_by_email_mark (db : Db) (uid code : String) (now : Time)
    (email : String) :
    get_user_by_email (mark_code_as_used db uid code now) email
      = get_user_by_email db email := rfl

/-- The status UPDATE leaves the code table untouched. -/
theorem get_activation_code_status_update (db : Db) (uid : String)
    (st : UserStatus) (now : Time) (act : Option Time) (uid2 code2 : String) :
    get_activation_code (users_after_status db uid st now act) uid2 code2
      = get_activation_code db uid2 code2 := rfl

/-- A found code row carries the looked-up key. -/
theorem get_activation_code_props (db : Db) (uid code : String)
    (ac : ActivationCode)
    (h : get_activation_code db uid code = some ac) :
    ac.user_id = uid ∧ ac.code = code := by
  unfold get_activation_code at h
  have := List.find?_some h
  simpa using this

/-- C1 (amended): activate with correct credentials on a PENDING user
holding a live code returns the user re-read with status ACTIVE and
activated_at stamped, persists that transition, and flags the code row
used; a second activate with the same code then fails, but with
UserAlreadyActivated (the already-active check precedes code
verification), not InvalidActivationCode. -/
theorem C1_activation_lifecycle (checkpw : String → String → Bool) (db : Db)
    (email password code : String) (now : Time) (user : User)
    (ac : ActivationCode)
    (huser : get_user_by_email db email = some user)
    (hid : get_user_by_id db user.user_id = some user)
    (hpw : checkpw password user.password_hash = true)
    (hpend : user.status = UserStatus.PENDING)
    (hcode : get_activation_code db user.user_id code = some ac)
    (hunused : ac.is_used = false)
    (hfresh : now < ac.expires_at) :
    (activate_user checkpw db email password code now).1
        = Except.ok ({ user with status := UserStatus.ACTIVE, updated_at := now, activated_at := some now }) ∧
    ({ user with status := UserStatus.ACTIVE, updated_at := now, activated_at := some now } : User).status = UserStatus.ACTIVE ∧
    ({ user with status := UserStatus.ACTIVE, updated_at := now, activated_at := some now } : User).activated_at = some now ∧
    get_user_by_id (activate_user checkpw db email password code now).2 user.user_id
        = some ({ user with status := UserStatus.ACTIVE, updated_at := now, activated_at := some now }) ∧
    get_activation_code (activate_user checkpw db email password code now).2
        user.user_id code
        = some ({ ac with is_used := true, used_at := some now }) ∧
    (∀ now2, (activate_user checkpw
        (activate_user checkpw db email password code now).2
        email password code now2).1
      = Except.error DmError.userAlreadyActivated) := by
  have hauth : authenticate_user checkpw db email password = .ok user := by
    unfold authenticate_user
    rw [huser]
    simp [hpw]
  have hia : user.is_active = false := by
    unfold User.is_active
    rw [hpend]
    rfl
  have hle : ¬ (ac.expires_at ≤ now) := not_le.mpr hfresh
  have hver : verify_activation_code db user.user_id code now = .ok () := by
    unfold verify_activation_code
    rw [hcode]
    simp [hunused, ActivationCode.is_expired, hle]
  have happ : applyStatus user.user_id UserStatus.ACTIVE now (some now) user
      = { user with status := UserStatus.ACTIVE, updated_at := now, activated_at := some now } := by
    unfold applyStatus
    rw [if_pos rfl]
  have hupd : update_user_status db user.user_id UserStatus.ACTIVE now (some now)
      = (.ok ({ user with status := UserStatus.ACTIVE, updated_at := now, activated_at := some now }),
         users_after_status db user.user_id UserStatus.ACTIVE now (some now)) := by
    unfold update_user_status
    rw [get_user_by_id_map_status, hid]
    simp [happ]
  have hact : activate_user checkpw db email password code now
      = (.ok ({ user with status := UserStatus.ACTIVE, updated_at := now, activated_at := some now }),
         mark_code_as_used
           (users_after_status db user.user_id UserStatus.ACTIVE now (some now))
           user.user_id code now) := by
    rw [activate_user_of_auth checkpw db email password code now user hauth hia,
      hver, hupd]
  refine ⟨by rw [hact], rfl, rfl, ?_, ?_, ?_⟩
  · rw [hact, get_user_by_id_mark, get_user_by_id_map_status, hid]
    simp [happ]
  · rw [hact, get_activation_code_mark, get_activation_code_status_update, hcode]
    obtain ⟨hacu, hacc⟩ := get_activation_code_props db user.user_id code ac hcode
    simp [applyMarkUsed, hacu, hacc]
  · intro now2
    have hdb2 : (activate_user checkpw db email password code now).2
        = mark_code_as_used
            (users_after_status db user.user_id UserStatus.ACTIVE now (some now))
            user.user_id code now := by
      rw [hact]
    rw [hdb2]
    have hauth2 : authenticate_user checkpw
        (mark_code_as_used
          (users_after_status db user.user_id UserStatus.ACTIVE now (some now))
          user.user_id code now) email password
        = .ok ({ user with status := UserStatus.ACTIVE, updated_at := now, activated_at := some now }) := by
      unfold authenticate_user
      rw [get_user_by_email_mark, get_user_by_email_map_status, huser]
      simp [happ, hpw]
    unfold activate_user
    rw [hauth2]
    simp [User.is_active]

/-- C1 witness: the amended theorem evaluated on the demo store. -/
theorem C1_activation_lifecycle_witness :
    (activate_user checkpwDemo dbDemo "a@x.com" "pass1234" "1234" 10).1
        = Except.ok ({ userDemo with status := UserStatus.ACTIVE, updated_at := 10, activated_at := some 10 }) ∧
    (activate_user checkpwDemo
        (activate_user checkpwDemo dbDemo "a@x.com" "pass1234" "1234" 10).2
        "a@x.com" "pass1234" "1234" 20).1
      = Except.error DmError.userAlreadyActivated := by
  have h := C1_activation_lifecycle checkpwDemo dbDemo "a@x.com" "pass1234"
    "1234" 10 userDemo codeDemo rfl rfl rfl rfl rfl rfl (by decide)
  exact ⟨h.1, h.2.2.2.2.2 20⟩

/-- C1 counterexample: after a successful activation, repeating the same
activate call fails with UserAlreadyActivated, not InvalidActivationCode
as the claim states, because the already-active check runs before code
verification. -/
theorem C1_counterexample :
    (activate_user checkpwDemo
        (activate_user checkpwDemo dbDemo "a@x.com" "pass1234" "1234" 10).2
        "a@x.com" "pass1234" "1234" 20).1
      = Except.error DmError.userAlreadyActivated ∧
    DmError.userAlreadyActivated ≠ DmError.invalidActivationCode := by
  exact ⟨rfl, by decide⟩

end Djimera
